import Mathlib

/-!
Verification of `src/extract_bmc_bye_laws.py`, a single-file pipeline that
reads a bye-laws document (plain text or PDF), asks an external LLM
extraction library (`langextract`) for structured extractions, writes a
JSONL result and an HTML visualization.

The embedding models:
  * the process environment and `load_dotenv` (override=False semantics),
  * a flat file system (paths as strings, file contents as byte lists),
  * `pathlib`'s `Path.suffix` / `str.lower` used for PDF detection,
  * Python's UTF-8 decoder with the `ignore` and `replace` error policies,
  * the pipeline functions `_read_text`, `build_prompt`, `build_examples`,
    `extract`, `save_results`, `visualize` and `main`.

External collaborators (the LLM backend `lx.extract`, the serializer
`lx.io.save_annotated_documents`, the PDF text extractor `pypdf`, and the
visualizer `lx.visualize`) are modelled as opaque parameters, exactly at
the boundary the script calls them.
-/

/-! ## Process environment -/

/-- A process environment: an association list of variable/value pairs.
Lookup takes the first binding, so prepending models `os.environ` priority. -/
abbrev Env := List (String × String)

/-- Model of `os.getenv(k)`: value of the first binding of `k`, if any. -/
def getenv (env : Env) (k : String) : Option String :=
  (env.find? (fun kv => kv.1 == k)).map (·.2)

/-- Model of `os.getenv(k, default)`. -/
def getenvD (env : Env) (k : String) (d : String) : String :=
  (getenv env k).getD d

/-- Model of `dotenv.load_dotenv()` with its default `override=False`:
each `.env` binding is added only behind the existing environment, so an
already-set process variable wins (setdefault semantics). -/
def loadDotenv (env : Env) (dotenvFile : Env) : Env :=
  env ++ dotenvFile

/-! ## Path helpers (`pathlib` fragment used by the script) -/

/-- Split a character list at every `/` (the groups between slashes). -/
def splitOnSlash : List Char → List (List Char)
  | [] => [[]]
  | c :: rest =>
    if c = '/' then [] :: splitOnSlash rest
    else
      match splitOnSlash rest with
      | [] => [[c]]
      | g :: gs => (c :: g) :: gs

/-- Components of a path string, `/`-separated, empty pieces dropped
(mirrors `PurePath.parts` for the relative fragment we need). -/
def pathComponents (s : String) : List String :=
  ((splitOnSlash s.data).map (fun g => String.mk g)).filter (fun c => c != "")

/-- Model of `Path.name`: the final path component. -/
def pathName (s : String) : String :=
  ((pathComponents s).getLast?).getD ""

/-- Model of `output_dir / filename` on paths rendered as strings. -/
def joinPath (d f : String) : String := d ++ "/" ++ f

/-- All ancestor paths of `s` including `s` itself, outermost first; these
are the directories `Path.mkdir(parents=True)` guarantees to exist. -/
def parentPaths (s : String) : List String :=
  let cs := pathComponents s
  (List.range cs.length).map (fun i => String.intercalate "/" (cs.take (i + 1)))

/-- Index of the last `.` in a character list, if any. -/
def lastDotIdx (cs : List Char) : Option Nat :=
  ((List.range cs.length).filter (fun i => cs.get? i == some '.')).getLast?

/-- Model of CPython's `PurePath.suffix`: with `i` the index of the last
dot of the final component's name, the suffix is `name[i:]` when
`0 < i < len(name) - 1`, else the empty string. -/
def pySuffix (name : String) : String :=
  let cs := name.data
  match lastDotIdx cs with
  | none => ""
  | some i => if 0 < i ∧ i + 1 < cs.length then String.mk (cs.drop i) else ""

/-- Model of `str.lower()` (ASCII fragment, which covers the `.pdf` test). -/
def strLower (s : String) : String := String.mk (s.data.map Char.toLower)

/-! ## Python's UTF-8 decoder with error policies

`_read_text` calls `Path.read_text(encoding="utf-8", errors="ignore")`.
We model the decoder for both the `ignore` policy (drop each maximal
invalid subpart) and the `replace` policy (substitute U+FFFD for each
maximal invalid subpart), so the spec's "substitution" wording can be
compared with the code's actual `ignore` behavior. -/

/-- Is `b` a valid UTF-8 continuation byte? -/
def contOK (b : Nat) : Bool := decide (0x80 ≤ b) && decide (b ≤ 0xBF)

/-- Valid range of the first continuation byte after a three-byte lead
(excludes overlong encodings and surrogates, as CPython does). -/
def cont3OK (b c : Nat) : Bool :=
  if b == 0xE0 then decide (0xA0 ≤ c) && decide (c ≤ 0xBF)
  else if b == 0xED then decide (0x80 ≤ c) && decide (c ≤ 0x9F)
  else contOK c

/-- Valid range of the first continuation byte after a four-byte lead
(excludes overlong encodings and code points past U+10FFFF). -/
def cont4OK (b c : Nat) : Bool :=
  if b == 0xF0 then decide (0x90 ≤ c) && decide (c ≤ 0xBF)
  else if b == 0xF4 then decide (0x80 ≤ c) && decide (c ≤ 0x8F)
  else contOK c

/-- What one maximal invalid subpart contributes: U+FFFD under `replace`,
nothing under `ignore`. -/
def replPart (replace : Bool) : List Nat := if replace then [0xFFFD] else []

/-- UTF-8 decode a byte list to code points. On an invalid or truncated
sequence, the maximal valid prefix of the sequence is consumed as one
error subpart and decoding resumes at the next byte, per CPython. The
`fuel` argument only bounds the recursion: every step consumes at least
one input byte, so fuel equal to the list length never runs out. -/
def utf8DecodeAux (replace : Bool) : Nat → List Nat → List Nat
  | 0, _ => []
  | _, [] => []
  | fuel + 1, b :: rest =>
    if b ≤ 0x7F then
      b :: utf8DecodeAux replace fuel rest
    else if 0xC2 ≤ b ∧ b ≤ 0xDF then
      match rest with
      | [] => replPart replace
      | c1 :: r1 =>
        if contOK c1 then
          ((b % 0x20) * 0x40 + c1 % 0x40) :: utf8DecodeAux replace fuel r1
        else replPart replace ++ utf8DecodeAux replace fuel (c1 :: r1)
    else if 0xE0 ≤ b ∧ b ≤ 0xEF then
      match rest with
      | [] => replPart replace
      | c1 :: r1 =>
        if cont3OK b c1 then
          match r1 with
          | [] => replPart replace
          | c2 :: r2 =>
            if contOK c2 then
              ((b % 0x10) * 0x1000 + (c1 % 0x40) * 0x40 + c2 % 0x40)
                :: utf8DecodeAux replace fuel r2
            else replPart replace ++ utf8DecodeAux replace fuel (c2 :: r2)
        else replPart replace ++ utf8DecodeAux replace fuel (c1 :: r1)
    else if 0xF0 ≤ b ∧ b ≤ 0xF4 then
      match rest with
      | [] => replPart replace
      | c1 :: r1 =>
        if cont4OK b c1 then
          match r1 with
          | [] => replPart replace
          | c2 :: r2 =>
            if contOK c2 then
              match r2 with
              | [] => replPart replace
              | c3 :: r3 =>
                if contOK c3 then
                  ((b % 8) * 0x40000 + (c1 % 0x40) * 0x1000
                      + (c2 % 0x40) * 0x40 + c3 % 0x40)
                    :: utf8DecodeAux replace fuel r3
                else replPart replace ++ utf8DecodeAux replace fuel (c3 :: r3)
            else replPart replace ++ utf8DecodeAux replace fuel (c2 :: r2)
        else replPart replace ++ utf8DecodeAux replace fuel (c1 :: r1)
    else
      replPart replace ++ utf8DecodeAux replace fuel rest

/-- Decode bytes to a string under the chosen error policy
(`replace = false` is `errors="ignore"`, `replace = true` is
`errors="replace"`). -/
def utf8DecodeStr (replace : Bool) (bs : List Nat) : String :=
  String.mk ((utf8DecodeAux replace bs.length bs).map Char.ofNat)

/-- UTF-8 encode one code point (used for `Path.write_text(encoding="utf-8")`). -/
def utf8EncodeChar (c : Nat) : List Nat :=
  if c < 0x80 then [c]
  else if c < 0x800 then [0xC0 + c / 0x40, 0x80 + c % 0x40]
  else if c < 0x10000 then
    [0xE0 + c / 0x1000, 0x80 + (c / 0x40) % 0x40, 0x80 + c % 0x40]
  else
    [0xF0 + c / 0x40000, 0x80 + (c / 0x1000) % 0x40,
     0x80 + (c / 0x40) % 0x40, 0x80 + c % 0x40]

/-- UTF-8 encode a string. -/
def utf8Encode (s : String) : List Nat :=
  s.data.flatMap (fun c => utf8EncodeChar c.toNat)

/-! ## File system model -/

/-- Contents of one file: its raw bytes, together with the page texts the
external `pypdf` reader would produce from those bytes (`none` models a
page whose `extract_text()` raises). The pages are collaborator data: the
script never parses PDFs itself. -/
structure FileData where
  bytes : List Nat
  pdfPages : List (Option String)
deriving DecidableEq, Repr

/-- A flat file system: existing directories and files keyed by path
string. Writing prepends, and lookup takes the first match, so a later
write at the same path overwrites. -/
structure FS where
  dirs : List String
  files : List (String × FileData)
deriving DecidableEq, Repr

/-- Look up the contents of the file at `p`, if present. -/
def lookupFile (fs : FS) (p : String) : Option FileData :=
  (fs.files.find? (fun kv => kv.1 == p)).map (·.2)

/-- Model of `Path.exists()`: true for files and directories alike. -/
def pathExists (fs : FS) (p : String) : Bool :=
  (lookupFile fs p).isSome || fs.dirs.contains p

/-- Write (create or overwrite) the file at `p`. -/
def writeFile (fs : FS) (p : String) (d : FileData) : FS :=
  { fs with files := (p, d) :: fs.files }

/-- Model of `Path.mkdir(parents=True, exist_ok=True)`: `p` and all of its
ancestors become existing directories; never fails. -/
def mkdirP (fs : FS) (p : String) : FS :=
  { fs with dirs := parentPaths p ++ fs.dirs }

/-- Model of `Path.parent` rendered back to a string. -/
def parentOf (s : String) : String :=
  String.intercalate "/" ((pathComponents s).dropLast)

/-! ## Data model (`lx.data` fragment the script constructs) -/

/-- One labeled span: `lx.data.Extraction`. `attributes` defaults to the
empty list, modelling the constructor calls that omit the keyword. -/
structure Extraction where
  extraction_class : String
  extraction_text : String
  attributes : List (String × String) := []
deriving DecidableEq, Repr

/-- A few-shot example: `lx.data.ExampleData`. -/
structure ExampleData where
  text : String
  extractions : List Extraction
deriving DecidableEq, Repr

/-- The annotated document the backend returns: source text plus the
extractions found in it. -/
structure AnnotatedDocument where
  text : String
  extractions : List Extraction
deriving DecidableEq, Repr

/-! ## The script's constants and pure builders -/

/-- Module-level `DEFAULT_MODEL_ID = os.getenv("LANGEXTRACT_MODEL_ID",
"llama3.2:1b")`, evaluated against the environment as it is at import
time (before `main` runs `load_dotenv`). -/
def DEFAULT_MODEL_ID (importEnv : Env) : String :=
  getenvD importEnv "LANGEXTRACT_MODEL_ID" "llama3.2:1b"

/-- `build_prompt()`: the constant instruction string. -/
def build_prompt : String :=
  "Extract structured entities from BMC (MCGM) building bye-laws.\n" ++
  "Respond with a strict JSON object having the key \x27extractions\x27, where \x27extractions\x27 is an array of objects.\n" ++
  "Allowed \x27extraction_class\x27 values: section, clause, definition, fsi_rule, setback_rule, height_rule, penalty.\n" ++
  "Each object must have: \x27extraction_class\x27, \x27extraction_text\x27 (exact span), and optional \x27attributes\x27 (JSON).\n" ++
  "Recommended attributes by class:\n" ++
  "- fsi_rule: \x7b max_fsi: number|string, zone?: string, notes?: string \x7d\n" ++
  "- setback_rule: \x7b front?: string, side?: string, rear?: string, units?: string, notes?: string \x7d\n" ++
  "- height_rule: \x7b max_height: string, units?: string, condition?: string, notes?: string \x7d\n" ++
  "- penalty: \x7b penalty_type?: string, amount?: string \x7d\n" ++
  "Example output:\n" ++
  "\x7b\n" ++
  "  \"extractions\": [\n" ++
  "    \x7b\"extraction_class\": \"section\", \"extraction_text\": \"Section 5: Water Supply\"\x7d,\n" ++
  "    \x7b\"extraction_class\": \"fsi_rule\", \"extraction_text\": \"FSI up to 2.0 permitted in Zone R\", \"attributes\": \x7b\"max_fsi\": \"2.0\", \"zone\": \"R\"\x7d\x7d,\n" ++
  "    \x7b\"extraction_class\": \"setback_rule\", \"extraction_text\": \"Front setback 6 m for roads > 18 m\", \"attributes\": \x7b\"front\": \"6 m\", \"units\": \"m\"\x7d\x7d,\n" ++
  "    \x7b\"extraction_class\": \"height_rule\", \"extraction_text\": \"Max building height 70 m subject to fire NOC\", \"attributes\": \x7b\"max_height\": \"70\", \"units\": \"m\", \"condition\": \"fire NOC\"\x7d\x7d\n" ++
  "  ]\n" ++
  "\x7d\n"

/-- `build_examples()`: the constant few-shot example set. -/
def build_examples : List ExampleData :=
  let example_text :=
    "Section 10: FSI. In Residential Zone (R), FSI up to 2.0 is permitted. " ++
    "Setbacks: Front setback 6 m for roads > 18 m; side and rear 3 m. " ++
    "Max building height 70 m subject to fire NOC. Penalty: Fine Rs. 5000."
  let extractions : List Extraction :=
    [ { extraction_class := "section"
        extraction_text := "Section 10: FSI" },
      { extraction_class := "fsi_rule"
        extraction_text := "FSI up to 2.0 is permitted"
        attributes := [("max_fsi", "2.0"), ("zone", "R")] },
      { extraction_class := "setback_rule"
        extraction_text := "Front setback 6 m for roads > 18 m; side and rear 3 m"
        attributes := [("front", "6 m"), ("side", "3 m"), ("rear", "3 m"), ("units", "m")] },
      { extraction_class := "height_rule"
        extraction_text := "Max building height 70 m subject to fire NOC"
        attributes := [("max_height", "70"), ("units", "m"), ("condition", "fire NOC")] },
      { extraction_class := "penalty"
        extraction_text := "Fine Rs. 5000"
        attributes := [("penalty_type", "Fine"), ("amount", "Rs. 5000")] } ]
  [{ text := example_text, extractions := extractions }]

/-! ## The pipeline functions -/

/-- The error message `_read_text` raises when `pypdf` is missing. -/
def pypdfMissingMsg : String :=
  "pypdf not installed. Run: uv pip install -r requirements.txt"

/-- Model of `_read_text`. PDF detection: `input_path.suffix.lower() ==
".pdf"`. In the PDF branch, a missing `pypdf` raises `SystemExit` before
the file is touched; otherwise the pages the reader yields are joined
with blank-line separators, a page whose `extract_text()` raises (`none`)
contributing `""`. In the text branch the bytes are decoded as UTF-8 with
`errors="ignore"`. The `none` cases of the lookups model Python raising
an I/O error for an unopenable file. -/
def read_text (pdfAvailable : Bool) (fs : FS) (input_path : String) :
    Except String String :=
  if strLower (pySuffix (pathName input_path)) = ".pdf" then
    if ¬ pdfAvailable then
      .error pypdfMissingMsg
    else
      match lookupFile fs input_path with
      | none => .error ("PdfReader failed to open " ++ input_path)
      | some fd =>
        .ok (String.intercalate "\n\n" (fd.pdfPages.map (fun pg => pg.getD "")))
  else
    match lookupFile fs input_path with
    | none => .error ("No such file: " ++ input_path)
    | some fd => .ok (utf8DecodeStr false fd.bytes)

/-- The request `lx.extract` receives from this script. -/
structure ExtractRequest where
  text_or_documents : String
  prompt_description : String
  examples : List ExampleData
  model_id : String
  fence_output : Bool
deriving DecidableEq, Repr

/-- The opaque extraction backend (`lx.extract`). -/
abbrev Backend := ExtractRequest → AnnotatedDocument

/-- The opaque serializer (`lx.io.save_annotated_documents`): given the
documents and the target path, produces the new file-system state. -/
abbrev LxSaver := List AnnotatedDocument → String → FS → FS

/-- The opaque visualizer (`lx.visualize`): HTML from the JSONL bytes. -/
abbrev LxVis := List Nat → String

/-- Model of `extract(text, model_id=DEFAULT_MODEL_ID)`: builds the
request and delegates to the backend. `model_id = none` models a call
that omits the argument, in which case the import-time default applies.
Returns the backend's document together with the request that was sent. -/
def extract (importEnv : Env) (backend : Backend) (text : String)
    (model_id : Option String) : AnnotatedDocument × ExtractRequest :=
  let req : ExtractRequest :=
    { text_or_documents := text
      prompt_description := build_prompt
      examples := build_examples
      model_id := model_id.getD (DEFAULT_MODEL_ID importEnv)
      fence_output := false }
  (backend req, req)

/-- Model of `save_results`: create the output directory (with parents),
let the external serializer write `results.jsonl` inside it, then verify
the file exists, raising `FileNotFoundError` if it is absent. Returns the
resulting file system alongside the path (or the fatal error). -/
def save_results (lxSave : LxSaver) (result : AnnotatedDocument) (fs : FS)
    (output_dir : String) : FS × Except String String :=
  let fs1 := mkdirP fs output_dir
  let jsonl_path := joinPath output_dir "results.jsonl"
  let fs2 := lxSave [result] jsonl_path fs1
  if pathExists fs2 jsonl_path then
    (fs2, .ok jsonl_path)
  else
    (fs2, .error ("Expected results not found at " ++ jsonl_path))

/-- Model of `visualize`: read the JSONL through `lx.visualize`, create
the HTML file's parent directory, and write the HTML as UTF-8. -/
def visualize (lxVis : LxVis) (fs : FS) (jsonl_path : String)
    (output_html : String) : FS × Except String Unit :=
  match lookupFile fs jsonl_path with
  | none => (fs, .error ("lx.visualize failed to open " ++ jsonl_path))
  | some fd =>
    let html := lxVis fd.bytes
    let fs1 := mkdirP fs (parentOf output_html)
    (writeFile fs1 output_html ⟨utf8Encode html, []⟩, .ok ())

/-- A serializer that actually writes the file (the behavior of
`lx.io.save_annotated_documents` when the write succeeds), with the JSONL
rendering itself still opaque. -/
def lxSaveWrites (serialize : List AnnotatedDocument → List Nat) : LxSaver :=
  fun docs p fs => writeFile fs p ⟨serialize docs, []⟩

/-- Input path `main` resolves from the (post-dotenv) environment. -/
def mainInputPath (env : Env) : String :=
  getenvD env "BMC_BYELAWS_PATH" "tests/sample_bmc_bye_laws.txt"

/-- Output directory `main` resolves from the (post-dotenv) environment. -/
def mainOutputDir (env : Env) : String :=
  getenvD env "OUTPUT_DIR" "outputs"

/-- Outcome of one run of `main`: the final file system, either the two
printed lines or the fatal error message, and the trace of requests sent
to the extraction backend. -/
structure RunResult where
  fs : FS
  outcome : Except String (List String)
  requests : List ExtractRequest
deriving Repr

namespace BMC

/-- Model of `main()`: load the `.env` file (without overriding existing
variables), resolve the input path and output directory, fail if the
input does not exist, then read, extract, save, and visualize. An
uncaught Python exception at any stage is the corresponding `.error`
outcome. -/
def main (pdfAvailable : Bool) (importEnv dotenvFile : Env)
    (backend : Backend) (lxSave : LxSaver) (lxVis : LxVis) (fs : FS) :
    RunResult :=
  let env := loadDotenv importEnv dotenvFile
  let input_path := mainInputPath env
  let output_dir := mainOutputDir env
  let output_html := joinPath output_dir "visualization.html"
  if pathExists fs input_path then
    match read_text pdfAvailable fs input_path with
    | .error e => ⟨fs, .error e, []⟩
    | .ok text =>
      let docReq := extract importEnv backend text none
      match save_results lxSave docReq.1 fs output_dir with
      | (fs1, .error e) => ⟨fs1, .error e, [docReq.2]⟩
      | (fs1, .ok jsonl_path) =>
        match visualize lxVis fs1 jsonl_path output_html with
        | (fs2, .error e) => ⟨fs2, .error e, [docReq.2]⟩
        | (fs2, .ok _) =>
          ⟨fs2,
           .ok ["Saved JSONL: " ++ jsonl_path,
                "Saved HTML visualization: " ++ output_html],
           [docReq.2]⟩
  else
    ⟨fs, .error ("Input text file not found: " ++ input_path), []⟩

end BMC

/-! ## Helper lemmas about the file-system model -/

/-- Looking up a freshly written file returns what was written. -/
theorem lookupFile_writeFile_self (fs : FS) (p : String) (d : FileData) :
    lookupFile (writeFile fs p d) p = some d := by
  simp [lookupFile, writeFile, List.find?_cons]

/-- Writing one file resolves other lookups as before. -/
theorem lookupFile_writeFile (fs : FS) (p q : String) (d : FileData) :
    lookupFile (writeFile fs q d) p =
      if q == p then some d else lookupFile fs p := by
  simp only [lookupFile, writeFile, List.find?_cons]
  cases hqp : (q == p) <;> simp [hqp]

/-- Creating directories does not change any file lookup. -/
theorem lookupFile_mkdirP (fs : FS) (q p : String) :
    lookupFile (mkdirP fs q) p = lookupFile fs p := rfl

/-- A write never removes a file: lookups that succeeded still succeed. -/
theorem lookupFile_writeFile_isSome (fs : FS) (p q : String) (d : FileData)
    (h : (lookupFile fs p).isSome = true) :
    (lookupFile (writeFile fs q d) p).isSome = true := by
  rw [lookupFile_writeFile]
  cases hqp : (q == p) <;> simp [h]

/-- A present file makes the path exist. -/
theorem pathExists_of_lookupFile (fs : FS) (p : String)
    (h : (lookupFile fs p).isSome = true) : pathExists fs p = true := by
  simp [pathExists, h]

/-- A freshly written file's path exists. -/
theorem pathExists_writeFile_self (fs : FS) (p : String) (d : FileData) :
    pathExists (writeFile fs p d) p = true := by
  simp [pathExists, lookupFile_writeFile_self]

/-- Every directory in the requested chain is present after `mkdirP`. -/
theorem mkdirP_creates_parents (fs : FS) (p : String) :
    ((parentPaths p).all (fun q => (mkdirP fs p).dirs.contains q)) = true := by
  simp only [List.all_eq_true, mkdirP]
  intro x hx
  simp [List.elem_eq_mem, List.mem_append, hx]

/-- Joining two distinct file names onto the same directory gives paths
that compare unequal. -/
theorem joinPath_beq_false (d a b : String) (hab : a ≠ b) :
    (joinPath d a == joinPath d b) = false := by
  simp only [joinPath, beq_eq_false_iff_ne, ne_eq]
  intro h
  apply hab
  apply String.ext
  have hdata := congrArg String.data h
  simp only [String.data_append, List.append_assoc] at hdata
  exact List.append_cancel_left (List.append_cancel_left hdata)

/-! ## Helper lemmas about `_read_text` -/

/-- The non-PDF branch of `_read_text`: a present file is decoded as
UTF-8 with the `ignore` policy, and the read always succeeds. -/
theorem read_text_text_branch (pdfAvailable : Bool) (fs : FS) (p : String)
    (fd : FileData)
    (hsuf : strLower (pySuffix (pathName p)) ≠ ".pdf")
    (hfd : lookupFile fs p = some fd) :
    read_text pdfAvailable fs p = .ok (utf8DecodeStr false fd.bytes) := by
  simp [read_text, hsuf, hfd]

/-- The PDF branch of `_read_text` with `pypdf` present: page texts are
joined with blank lines, raising pages (`none`) contributing `""`. -/
theorem read_text_pdf_branch (fs : FS) (p : String) (fd : FileData)
    (hsuf : strLower (pySuffix (pathName p)) = ".pdf")
    (hfd : lookupFile fs p = some fd) :
    read_text true fs p =
      .ok (String.intercalate "\n\n" (fd.pdfPages.map (fun pg => pg.getD ""))) := by
  simp [read_text, hsuf, hfd]

/-- The PDF branch of `_read_text` without `pypdf`: fatal configuration
error, whatever the file system holds. -/
theorem read_text_pdf_nodep (fs : FS) (p : String)
    (hsuf : strLower (pySuffix (pathName p)) = ".pdf") :
    read_text false fs p = .error pypdfMissingMsg := by
  simp [read_text, hsuf]

/-! ## A successful run of `main` -/

/-- With a serializer that writes its file, an existing non-PDF input
runs `main` to success: the outcome holds the two printed paths, the
output directory holds `results.jsonl` with the serialized backend
document and `visualization.html`, and the input file is still there. -/
theorem main_run_success (pdfAvailable : Bool) (importEnv dotenvFile : Env)
    (backend : Backend) (serialize : List AnnotatedDocument → List Nat)
    (lxVis : LxVis) (fs : FS) (fd : FileData)
    (hfd : lookupFile fs (mainInputPath (loadDotenv importEnv dotenvFile)) = some fd)
    (hsuf : strLower (pySuffix (pathName (mainInputPath (loadDotenv importEnv dotenvFile)))) ≠ ".pdf") :
    ∃ doc : AnnotatedDocument,
      (BMC.main pdfAvailable importEnv dotenvFile backend (lxSaveWrites serialize) lxVis fs).outcome =
        .ok ["Saved JSONL: "
               ++ joinPath (mainOutputDir (loadDotenv importEnv dotenvFile)) "results.jsonl",
             "Saved HTML visualization: "
               ++ joinPath (mainOutputDir (loadDotenv importEnv dotenvFile)) "visualization.html"]
      ∧ lookupFile (BMC.main pdfAvailable importEnv dotenvFile backend (lxSaveWrites serialize) lxVis fs).fs
          (joinPath (mainOutputDir (loadDotenv importEnv dotenvFile)) "results.jsonl")
          = some ⟨serialize [doc], []⟩
      ∧ (lookupFile (BMC.main pdfAvailable importEnv dotenvFile backend (lxSaveWrites serialize) lxVis fs).fs
          (joinPath (mainOutputDir (loadDotenv importEnv dotenvFile)) "visualization.html")).isSome = true
      ∧ (lookupFile (BMC.main pdfAvailable importEnv dotenvFile backend (lxSaveWrites serialize) lxVis fs).fs
          (mainInputPath (loadDotenv importEnv dotenvFile))).isSome = true := by
  have hex : pathExists fs (mainInputPath (loadDotenv importEnv dotenvFile)) = true :=
    pathExists_of_lookupFile _ _ (by simp [hfd])
  have hrt := read_text_text_branch pdfAvailable fs
    (mainInputPath (loadDotenv importEnv dotenvFile)) fd hsuf hfd
  unfold BMC.main
  simp only [hex, if_true, hrt, save_results, lxSaveWrites, visualize,
    pathExists_writeFile_self, lookupFile_writeFile_self, if_pos]
  refine ⟨(extract importEnv backend (utf8DecodeStr false fd.bytes) none).1,
    trivial, ?_, by simp, ?_⟩
  · rw [lookupFile_writeFile, joinPath_beq_false _ _ _ (by decide)]
    simp [lookupFile_writeFile_self, lookupFile_mkdirP]
  · apply lookupFile_writeFile_isSome
    simp only [lookupFile_mkdirP]
    apply lookupFile_writeFile_isSome
    simp only [lookupFile_mkdirP]
    simp [hfd]

/-! ## Claims -/

/-- Claim C2: if the resolved input path does not exist, `main`
terminates fatally with the message naming that path, leaves the file
system exactly as it was (no output files written), and sends no request
to the extraction backend — so no reading or extraction work happens. -/
theorem c2_missing_input_fatal (pdfAvailable : Bool) (importEnv dotenvFile : Env)
    (backend : Backend) (lxSave : LxSaver) (lxVis : LxVis) (fs : FS)
    (h : pathExists fs (mainInputPath (loadDotenv importEnv dotenvFile)) = false) :
    BMC.main pdfAvailable importEnv dotenvFile backend lxSave lxVis fs =
      ⟨fs,
       .error ("Input text file not found: "
         ++ mainInputPath (loadDotenv importEnv dotenvFile)),
       []⟩ := by
  unfold BMC.main
  simp [h]

/-- Witness for C2: on an empty file system the default input path is
missing, and `main` fails with the message naming it, touching nothing. -/
theorem c2_missing_input_fatal_witness :
    BMC.main true [] [] (fun _ => ⟨"", []⟩) (fun _ _ fs => fs) (fun _ => "") ⟨[], []⟩ =
      ⟨⟨[], []⟩, .error "Input text file not found: tests/sample_bmc_bye_laws.txt", []⟩ := by
  have h := c2_missing_input_fatal true [] [] (fun _ => ⟨"", []⟩) (fun _ _ fs => fs)
    (fun _ => "") ⟨[], []⟩ rfl
  rw [h]
  rfl

/-- Claim C3 as stated is false at a concrete input: for the file
`a.txt` with bytes `41 FF 42`, `_read_text` returns `"AB"` — the
undecodable byte `FF` is dropped (`errors="ignore"`), not replaced by a
substitution character as decoding-by-substitution would produce. -/
theorem c3_substitution_counterexample :
    read_text true ⟨[], [("a.txt", ⟨[0x41, 0xFF, 0x42], []⟩)]⟩ "a.txt" = .ok "AB"
    ∧ utf8DecodeStr true [0x41, 0xFF, 0x42] ≠ "AB" := by
  exact ⟨rfl, by decide⟩

/-- Claim C3 (amended): for every non-PDF input path that exists,
`_read_text` decodes the file's bytes as UTF-8 and tolerates undecodable
bytes by dropping them (`errors="ignore"`) rather than failing; it never
raises a decoding error. -/
theorem c3_read_text_utf8_ignore (pdfAvailable : Bool) (fs : FS) (p : String)
    (fd : FileData)
    (hsuf : strLower (pySuffix (pathName p)) ≠ ".pdf")
    (hfd : lookupFile fs p = some fd) :
    read_text pdfAvailable fs p = .ok (utf8DecodeStr false fd.bytes) :=
  read_text_text_branch pdfAvailable fs p fd hsuf hfd

/-- Witness for the amended C3, at the bytes `41 FF 42` of file `b.txt`. -/
theorem c3_read_text_utf8_ignore_witness :
    read_text true ⟨[], [("b.txt", ⟨[0x41, 0xFF, 0x42], []⟩)]⟩ "b.txt" =
      .ok (utf8DecodeStr false [0x41, 0xFF, 0x42]) :=
  c3_read_text_utf8_ignore true ⟨[], [("b.txt", ⟨[0x41, 0xFF, 0x42], []⟩)]⟩ "b.txt"
    ⟨[0x41, 0xFF, 0x42], []⟩ (by decide) rfl

/-- Claim C4 as stated is false: the example set of `build_examples`
does not cover all seven extraction classes — `clause` and `definition`
have no example. -/
theorem c4_seven_classes_counterexample :
    ¬ (∀ c ∈ (["section", "clause", "definition", "fsi_rule", "setback_rule",
          "height_rule", "penalty"] : List String),
        c ∈ ((build_examples.map (fun e => e.extractions)).flatten.map
          (fun e => e.extraction_class))) := by
  decide

/-- Claim C4 (amended): the example set returned by `build_examples`
covers exactly five of the seven extraction classes — section, fsi_rule,
setback_rule, height_rule, penalty — each with its representative
attribute shape; clause and definition have no example. -/
theorem c4_examples_cover_five_classes :
    ((build_examples.map (fun e => e.extractions)).flatten.map
        (fun e => e.extraction_class))
      = ["section", "fsi_rule", "setback_rule", "height_rule", "penalty"]
    ∧ ((build_examples.map (fun e => e.extractions)).flatten.map
        (fun e => e.attributes))
      = [[],
         [("max_fsi", "2.0"), ("zone", "R")],
         [("front", "6 m"), ("side", "3 m"), ("rear", "3 m"), ("units", "m")],
         [("max_height", "70"), ("units", "m"), ("condition", "fire NOC")],
         [("penalty_type", "Fine"), ("amount", "Rs. 5000")]] :=
  ⟨rfl, rfl⟩

/-- Claim C5: for a PDF input (with `pypdf` available), `_read_text`
returns the page texts joined with blank-line separators; a page whose
extraction raises contributes the empty string at its position, and the
read of the remaining pages still completes (the result is `.ok`). -/
theorem c5_pdf_page_failure_degrades (fs : FS) (p : String) (fd : FileData)
    (i : Nat)
    (hsuf : strLower (pySuffix (pathName p)) = ".pdf")
    (hfd : lookupFile fs p = some fd)
    (hpage : fd.pdfPages[i]? = some none) :
    read_text true fs p =
      .ok (String.intercalate "\n\n" (fd.pdfPages.map (fun pg => pg.getD "")))
    ∧ (fd.pdfPages.map (fun pg => pg.getD ""))[i]? = some "" := by
  refine ⟨read_text_pdf_branch fs p fd hsuf hfd, ?_⟩
  simp [List.getElem?_map, hpage]

/-- Witness for C5: a three-page PDF whose middle page raises reads to
`"A\n\n\n\nB"`, the raising page contributing the empty middle segment. -/
theorem c5_pdf_page_failure_degrades_witness :
    read_text true ⟨[], [("d/b.pdf", ⟨[], [some "A", none, some "B"]⟩)]⟩ "d/b.pdf" =
      .ok "A\n\n\n\nB"
    ∧ (([some "A", none, some "B"] : List (Option String)).map
        (fun pg => pg.getD ""))[1]? = some "" := by
  have h := c5_pdf_page_failure_degrades
    ⟨[], [("d/b.pdf", ⟨[], [some "A", none, some "B"]⟩)]⟩ "d/b.pdf"
    ⟨[], [some "A", none, some "B"]⟩ 1 (by decide) rfl rfl
  exact ⟨h.1.trans (by rfl), h.2⟩

/-- Claim C6: for a path with a PDF extension, when `pypdf` is
unavailable `_read_text` raises the fatal configuration error — for
every file system, in particular before the file is ever read (the file
need not even exist). -/
theorem c6_pdf_dependency_fatal (fs : FS) (p : String)
    (hsuf : strLower (pySuffix (pathName p)) = ".pdf") :
    read_text false fs p = .error pypdfMissingMsg :=
  read_text_pdf_nodep fs p hsuf

/-- Witness for C6: `doc.pdf` on an empty file system (the file does not
exist, yet the dependency error is what surfaces). -/
theorem c6_pdf_dependency_fatal_witness :
    read_text false ⟨[], []⟩ "doc.pdf" = .error pypdfMissingMsg :=
  c6_pdf_dependency_fatal ⟨[], []⟩ "doc.pdf" (by decide)

/-- Claim C7: `save_results` creates the output directory with all
intermediate directories, hands the serializer the path
`output_dir/results.jsonl` in that prepared state, and afterwards
returns that path exactly when the file exists, raising the fatal
`Expected results not found` error when the serializer silently produced
no file. -/
theorem c7_save_results_contract (lxSave : LxSaver) (result : AnnotatedDocument)
    (fs : FS) (output_dir : String) :
    ((parentPaths output_dir).all
        (fun q => (mkdirP fs output_dir).dirs.contains q) = true)
    ∧ save_results lxSave result fs output_dir =
        (lxSave [result] (joinPath output_dir "results.jsonl") (mkdirP fs output_dir),
         if pathExists
              (lxSave [result] (joinPath output_dir "results.jsonl") (mkdirP fs output_dir))
              (joinPath output_dir "results.jsonl")
         then .ok (joinPath output_dir "results.jsonl")
         else .error ("Expected results not found at "
                ++ joinPath output_dir "results.jsonl")) := by
  refine ⟨mkdirP_creates_parents fs output_dir, ?_⟩
  unfold save_results
  cases hc : pathExists
      (lxSave [result] (joinPath output_dir "results.jsonl") (mkdirP fs output_dir))
      (joinPath output_dir "results.jsonl") <;> simp [hc]

/-- Claim C8: with a serializer that writes its file, running the
pipeline twice with the same input file and output directory succeeds
both times; after the second run `results.jsonl` holds the second run's
serialized document (the fixed target was overwritten, not duplicated)
and `visualization.html` is present at its fixed path. -/
theorem c8_rerun_overwrites_without_error (pdfAvailable : Bool)
    (importEnv dotenvFile : Env) (backend : Backend)
    (serialize : List AnnotatedDocument → List Nat) (lxVis : LxVis)
    (fs : FS) (fd : FileData)
    (hfd : lookupFile fs (mainInputPath (loadDotenv importEnv dotenvFile)) = some fd)
    (hsuf : strLower (pySuffix (pathName (mainInputPath (loadDotenv importEnv dotenvFile)))) ≠ ".pdf") :
    (BMC.main pdfAvailable importEnv dotenvFile backend (lxSaveWrites serialize) lxVis fs).outcome.isOk = true
    ∧ (BMC.main pdfAvailable importEnv dotenvFile backend (lxSaveWrites serialize) lxVis
        (BMC.main pdfAvailable importEnv dotenvFile backend (lxSaveWrites serialize) lxVis fs).fs).outcome.isOk = true
    ∧ (∃ d : AnnotatedDocument,
        lookupFile
          (BMC.main pdfAvailable importEnv dotenvFile backend (lxSaveWrites serialize) lxVis
            (BMC.main pdfAvailable importEnv dotenvFile backend (lxSaveWrites serialize) lxVis fs).fs).fs
          (joinPath (mainOutputDir (loadDotenv importEnv dotenvFile)) "results.jsonl")
          = some ⟨serialize [d], []⟩)
    ∧ (lookupFile
        (BMC.main pdfAvailable importEnv dotenvFile backend (lxSaveWrites serialize) lxVis
          (BMC.main pdfAvailable importEnv dotenvFile backend (lxSaveWrites serialize) lxVis fs).fs).fs
        (joinPath (mainOutputDir (loadDotenv importEnv dotenvFile)) "visualization.html")).isSome = true := by
  obtain ⟨doc1, hout1, hjson1, hhtml1, hinput1⟩ :=
    main_run_success pdfAvailable importEnv dotenvFile backend serialize lxVis fs fd hfd hsuf
  obtain ⟨fd2, hfd2⟩ := Option.isSome_iff_exists.mp hinput1
  obtain ⟨doc2, hout2, hjson2, hhtml2, hinput2⟩ :=
    main_run_success pdfAvailable importEnv dotenvFile backend serialize lxVis
      (BMC.main pdfAvailable importEnv dotenvFile backend (lxSaveWrites serialize) lxVis fs).fs
      fd2 hfd2 hsuf
  refine ⟨?_, ?_, ⟨doc2, hjson2⟩, hhtml2⟩
  · rw [hout1]
    rfl
  · rw [hout2]
    rfl

/-- Witness for C8: two concrete runs on the default input file and
output directory, both succeeding, the outputs present afterwards. -/
theorem c8_rerun_overwrites_without_error_witness :
    (BMC.main true [] [] (fun r => ⟨r.text_or_documents, []⟩)
      (lxSaveWrites (fun _ => [1])) (fun _ => "h")
      ⟨[], [("tests/sample_bmc_bye_laws.txt", ⟨[0x68], []⟩)]⟩).outcome.isOk = true
    ∧ (BMC.main true [] [] (fun r => ⟨r.text_or_documents, []⟩)
        (lxSaveWrites (fun _ => [1])) (fun _ => "h")
        (BMC.main true [] [] (fun r => ⟨r.text_or_documents, []⟩)
          (lxSaveWrites (fun _ => [1])) (fun _ => "h")
          ⟨[], [("tests/sample_bmc_bye_laws.txt", ⟨[0x68], []⟩)]⟩).fs).outcome.isOk = true
    ∧ (lookupFile
        (BMC.main true [] [] (fun r => ⟨r.text_or_documents, []⟩)
          (lxSaveWrites (fun _ => [1])) (fun _ => "h")
          (BMC.main true [] [] (fun r => ⟨r.text_or_documents, []⟩)
            (lxSaveWrites (fun _ => [1])) (fun _ => "h")
            ⟨[], [("tests/sample_bmc_bye_laws.txt", ⟨[0x68], []⟩)]⟩).fs).fs
        (joinPath (mainOutputDir (loadDotenv [] [])) "visualization.html")).isSome = true := by
  have h := c8_rerun_overwrites_without_error true [] []
    (fun r => ⟨r.text_or_documents, []⟩) (fun _ => [1]) (fun _ => "h")
    ⟨[], [("tests/sample_bmc_bye_laws.txt", ⟨[0x68], []⟩)]⟩ ⟨[0x68], []⟩ rfl (by decide)
  exact ⟨h.1, h.2.1, h.2.2.2⟩

/-- Claim C9: `_read_text` branches solely on whether the final
component's suffix lowercases to `.pdf`: such paths take the PDF
extraction branch (whatever the file's bytes are), and every other path
is decoded as plain text (whatever its PDF page data would be). -/
theorem c9_pdf_detection_case_insensitive (pdfAvailable : Bool) (fs : FS)
    (p : String) (fd : FileData)
    (hfd : lookupFile fs p = some fd) :
    read_text pdfAvailable fs p =
      (if strLower (pySuffix (pathName p)) = ".pdf" then
        (if pdfAvailable then
          .ok (String.intercalate "\n\n" (fd.pdfPages.map (fun pg => pg.getD "")))
         else .error pypdfMissingMsg)
       else .ok (utf8DecodeStr false fd.bytes)) := by
  by_cases hs : strLower (pySuffix (pathName p)) = ".pdf"
  · cases pdfAvailable
    · simp [hs, read_text_pdf_nodep fs p hs]
    · simp [hs, read_text_pdf_branch fs p fd hs hfd]
  · simp [hs, read_text_text_branch pdfAvailable fs p fd hs hfd]

/-- Witness for C9: the upper-case `DOC.PDF` takes the PDF branch while
`doc.txt` with the very same contents is read as plain text. -/
theorem c9_pdf_detection_case_insensitive_witness :
    read_text true ⟨[], [("DOC.PDF", ⟨[0x41], [some "pg"]⟩)]⟩ "DOC.PDF" = .ok "pg"
    ∧ read_text true ⟨[], [("doc.txt", ⟨[0x41], [some "pg"]⟩)]⟩ "doc.txt" = .ok "A" := by
  have h1 := c9_pdf_detection_case_insensitive true
    ⟨[], [("DOC.PDF", ⟨[0x41], [some "pg"]⟩)]⟩ "DOC.PDF" ⟨[0x41], [some "pg"]⟩ rfl
  have h2 := c9_pdf_detection_case_insensitive true
    ⟨[], [("doc.txt", ⟨[0x41], [some "pg"]⟩)]⟩ "doc.txt" ⟨[0x41], [some "pg"]⟩ rfl
  exact ⟨h1.trans (by rfl), h2.trans (by rfl)⟩

/-- Claim C10: when the import-time environment does not set
`LANGEXTRACT_MODEL_ID`, every request `main` sends to the backend uses
the fallback model id `llama3.2:1b` — whatever the `.env` file says,
because the module-level default is captured before `load_dotenv` runs. -/
theorem c10_dotenv_model_id_never_sent (pdfAvailable : Bool)
    (importEnv dotenvFile : Env) (backend : Backend) (lxSave : LxSaver)
    (lxVis : LxVis) (fs : FS)
    (h : getenv importEnv "LANGEXTRACT_MODEL_ID" = none) :
    ((BMC.main pdfAvailable importEnv dotenvFile backend lxSave lxVis fs).requests.all
      (fun req => req.model_id == "llama3.2:1b")) = true := by
  have hdef : DEFAULT_MODEL_ID importEnv = "llama3.2:1b" := by
    simp [DEFAULT_MODEL_ID, getenvD, h]
  unfold BMC.main
  dsimp only
  split
  · split
    · simp
    · split
      · simp [extract, hdef]
      · split <;> simp [extract, hdef]
  · simp

/-- Witness for C10: with `LANGEXTRACT_MODEL_ID=mistral` supplied only
through the `.env` file, the (successful) run's one backend request
still carries `llama3.2:1b`. -/
theorem c10_dotenv_model_id_never_sent_witness :
    ((BMC.main true [] [("LANGEXTRACT_MODEL_ID", "mistral")]
        (fun r => ⟨r.text_or_documents, []⟩) (lxSaveWrites (fun _ => [1]))
        (fun _ => "h")
        ⟨[], [("tests/sample_bmc_bye_laws.txt", ⟨[0x68], []⟩)]⟩).requests.all
      (fun req => req.model_id == "llama3.2:1b")) = true :=
  c10_dotenv_model_id_never_sent true [] [("LANGEXTRACT_MODEL_ID", "mistral")]
    (fun r => ⟨r.text_or_documents, []⟩) (lxSaveWrites (fun _ => [1]))
    (fun _ => "h") ⟨[], [("tests/sample_bmc_bye_laws.txt", ⟨[0x68], []⟩)]⟩ rfl
